import Mathlib

/-!
# Verification of the SmartPave synthetic data generator

Shallow embedding of `scripts/generate_data.py`.  The script is a pure,
seeded generation pass with four stages (road network, pavement condition,
maintenance records, traffic volume).  Randomness is embedded as explicit
noise-stream parameters: every call of a numpy distribution in the source is
modelled as a field of a noise record, with `normal(mu, sigma)` rendered as
`mu + sigma * g` for a standard draw `g`, `uniform(a, b)` as `a + (b-a) * u`,
`exponential(s)` as `s * e`, Poisson draws as natural numbers, and
`np.random.choice` over a list as a `Fin`-indexed pick from that list.
Continuous quantities are rationals; Python `int()` truncation and
`round(x, k)` (round-half-to-even at `k` decimal places) are modelled
explicitly below.
-/

attribute [local semireducible] Rat.add Rat.sub Rat.mul Rat.inv Rat.ofScientific

set_option maxRecDepth 40000

/-- Python `int()` applied to a rational: truncation toward zero. -/
def pyInt (q : ℚ) : ℤ := if q < 0 then -⌊-q⌋ else ⌊q⌋

/-- Python `round(q, k)`: round to `k` decimal places, ties to even. -/
def pyRound (k : Nat) (q : ℚ) : ℚ :=
  ((if q * (10:ℚ)^k - ⌊q * (10:ℚ)^k⌋ < 1/2 then ⌊q * (10:ℚ)^k⌋
    else if 1/2 < q * (10:ℚ)^k - ⌊q * (10:ℚ)^k⌋ then ⌊q * (10:ℚ)^k⌋ + 1
    else if 2 ∣ ⌊q * (10:ℚ)^k⌋ then ⌊q * (10:ℚ)^k⌋
    else ⌊q * (10:ℚ)^k⌋ + 1 : ℤ) : ℚ) / (10:ℚ)^k

/-- Python `f"{n:0{w}d}"` style zero padding of a natural number. -/
def padNum (w : Nat) (n : Nat) : String :=
  let s := toString n
  String.pushn "" '0' (w - s.length) ++ s

/-- Little-endian base-10 digits with explicit fuel (structurally
recursive; `decDigits` below instantiates the fuel). -/
def digitsAux : Nat → Nat → List Nat
  | 0, _ => []
  | _ + 1, 0 => []
  | fuel + 1, n + 1 => (n + 1) % 10 :: digitsAux fuel ((n + 1) / 10)

/-- Little-endian base-10 digits of `n` (empty for 0). -/
def decDigits (n : Nat) : List Nat := digitsAux n n

/-- The zero-padded decimal numeral of `f"M{n:06d}"`, as its (little-endian)
digit list: the digits of `n` followed by as many high-order zeros as the
padding to width 6 adds. -/
def mkId (n : Nat) : List Nat :=
  decDigits n ++ List.replicate (6 - (decDigits n).length) 0

/-- Gregorian leap-year rule, as used by Python `datetime`. -/
def isLeap (y : Nat) : Bool :=
  y % 4 == 0 && (y % 100 != 0 || y % 400 == 0)

def daysInMonth (y m : Nat) : Nat :=
  if m = 2 then (if isLeap y then 29 else 28)
  else if m = 4 ∨ m = 6 ∨ m = 9 ∨ m = 11 then 30
  else 31

/-- Day number of the first of month `m` of year `y`, counted from
2020-01-01; `(d2 - d1).days` in the source is the difference of these. -/
def dayNum (y m : Nat) : Nat :=
  (List.range ((y - 2020) * 12 + (m - 1))).foldl
    (fun acc i => acc + daysInMonth (2020 + i / 12) (1 + i % 12)) 0

/-! ## Data model -/

/-- Noise pack for one segment row of `generate_road_network`: four Gaussian
coordinate draws, the two `np.random.choice` index picks, the
category-conditioned traffic Gaussian and the uniform length draw. -/
structure RNoise where
  gBaseLat : ℚ
  gBaseLon : ℚ
  gLat : ℚ
  gLon : ℚ
  laneIdx : Fin 5
  typeIdx : Fin 4
  gTraffic : ℚ
  uLen : ℚ
  deriving DecidableEq

structure RoadRow where
  road_id : String
  segment_id : String
  road_type : String
  lanes : Nat
  latitude : ℚ
  longitude : ℚ
  traffic_volume : ℤ
  segment_length_miles : ℚ
  deriving DecidableEq

/-- One row of the inner loop of `generate_road_network`. -/
def mkRoadRow (road_name : String) (seg_id : Nat) (n : RNoise) : RoadRow :=
  let base_lat : ℚ := 39.8283 + 0.5 * n.gBaseLat
  let base_lon : ℚ := -98.5795 + 0.5 * n.gBaseLon
  let lat : ℚ := base_lat + 0.01 * n.gLat
  let lon : ℚ := base_lon + 0.01 * n.gLon
  let lanes : Nat := ([2, 3, 4, 5, 6] : List Nat).get n.laneIdx
  let road_type : String :=
    (["Highway", "Arterial", "Collector", "Local"] : List String).get n.typeIdx
  let traffic_raw : ℚ :=
    if road_type = "Highway" then 75000 + 15000 * n.gTraffic
    else if road_type = "Arterial" then 35000 + 8000 * n.gTraffic
    else if road_type = "Collector" then 15000 + 4000 * n.gTraffic
    else 5000 + 2000 * n.gTraffic
  { road_id := road_name
    segment_id := road_name ++ "_S" ++ padNum 3 seg_id
    road_type := road_type
    lanes := lanes
    latitude := lat
    longitude := lon
    traffic_volume := max 1000 (pyInt traffic_raw)
    segment_length_miles := 0.1 + 0.4 * n.uLen }

def n_roads : Nat := 200

/-- Embedding of `generate_road_network`: 200 roads, each with a Poisson(40)-drawn
segment count (`segCount ri` is that draw for road index `ri`), one row per
segment. -/
def generate_road_network (segCount : Nat → Nat) (noise : Nat → Nat → RNoise) :
    List RoadRow :=
  (List.range n_roads).flatMap fun ri =>
    let road_name := "R" ++ padNum 3 (ri + 1)
    (List.range (segCount ri)).map fun si =>
      mkRoadRow road_name (si + 1) (noise ri si)

/-- Noise pack for one condition row: Gaussian draws for score, roughness
and cracking, a Poisson(0.5) pothole draw, a standard exponential draw for
precipitation, and a Poisson(2) freeze-thaw draw.  (The source also draws
Gaussian noise for `temperature_avg`; that field is an irrational-valued
trigonometric quantity which no claim mentions and is omitted here.) -/
structure CNoise where
  gScore : ℚ
  gRough : ℚ
  gCrack : ℚ
  pPothole : Nat
  ePrecip : ℚ
  pFreeze : Nat
  deriving DecidableEq

structure CondRow where
  road_id : String
  segment_id : String
  date : ℤ
  lanes : Nat
  condition_score : ℚ
  roughness_index : ℚ
  cracking_percent : ℚ
  pothole_count : ℤ
  precipitation : ℚ
  freeze_thaw_cycles : Nat
  traffic_volume : ℤ
  road_type : String
  latitude : ℚ
  longitude : ℚ
  deriving DecidableEq

/-- One row of the inner loop of `generate_pavement_condition_data`, for
reporting period `ym = (year, month)` and network row `road`. -/
def mkCondRow (n : CNoise) (ym : Nat × Nat) (road : RoadRow) : CondRow :=
  let month := ym.2
  let seasonal_factor : ℚ :=
    if month ∈ ([12, 1, 2] : List Nat) then -5
    else if month ∈ ([6, 7, 8] : List Nat) then 2
    else 0
  let traffic_factor : ℚ := -(road.traffic_volume : ℚ) / 100000
  let road_factor : ℚ :=
    if road.road_type = "Highway" then 5
    else if road.road_type = "Local" then -3
    else 0
  let random_factor : ℚ := 3 * n.gScore
  let condition_score : ℚ :=
    max 0 (min 100 (85 + seasonal_factor + traffic_factor + road_factor + random_factor))
  { road_id := road.road_id
    segment_id := road.segment_id
    date := (dayNum ym.1 ym.2 : ℤ)
    lanes := road.lanes
    condition_score := pyRound 1 condition_score
    roughness_index := pyRound 1 (max 50 (200 - condition_score + 10 * n.gRough))
    cracking_percent := pyRound 1 (max 0 ((100 - condition_score) * 0.3 + 2 * n.gCrack))
    pothole_count := max 0 (pyInt ((100 - condition_score) / 20 + (n.pPothole : ℚ)))
    precipitation := pyRound 2 (0.5 * n.ePrecip)
    freeze_thaw_cycles := if month ∈ ([12, 1, 2] : List Nat) then n.pFreeze else 0
    traffic_volume := road.traffic_volume
    road_type := road.road_type
    latitude := road.latitude
    longitude := road.longitude }

/-- The date-advance of the condition loop: quarter-start months jump a
quarter (October wraps to January of the next year), other months advance
by one (the loop only ever visits quarter starts, so the second branch is
the source's dead code, kept for faithfulness). -/
def periodStep (ym : Nat × Nat) : Nat × Nat :=
  if ym.2 = 1 ∨ ym.2 = 4 ∨ ym.2 = 7 ∨ ym.2 = 10 then
    if ym.2 = 10 then (ym.1 + 1, 1) else (ym.1, ym.2 + 3)
  else if ym.2 = 12 then (ym.1 + 1, 1) else (ym.1, ym.2 + 1)

/-- The `while current_date <= end_date` loop, with a fuel bound well above
the 20 iterations actually taken; all dates are firsts of months, so the
loop guard against 2024-12-31 is `year <= 2024`. -/
def datesFrom : Nat → Nat × Nat → List (Nat × Nat)
  | 0, _ => []
  | fuel + 1, ym => if ym.1 ≤ 2024 then ym :: datesFrom fuel (periodStep ym) else []

def reportDates : List (Nat × Nat) := datesFrom 120 (2020, 1)

/-- Embedding of `generate_pavement_condition_data`: for each reporting period, one row
per network row, in network order; `noise pi ri` is the noise pack for
period index `pi` and road-row index `ri`. -/
def generate_pavement_condition_data (noise : Nat → Nat → CNoise)
    (roads : List RoadRow) : List CondRow :=
  reportDates.enum.flatMap fun pd =>
    roads.enum.map fun rr => mkCondRow (noise pd.1 rr.1) pd.2 rr.2

/-- Noise pack for one created maintenance record: the conditional
Poisson(1) weather-delay draw, the `np.random.choice` contractor pick, and
the Gaussian effectiveness draw. -/
structure MNoise where
  pWeather : Nat
  cIdx : Fin 5
  gEff : ℚ
  deriving DecidableEq

structure MRec where
  maintenance_id : List Nat
  idNum : Nat
  road_id : String
  segment_id : String
  date : ℤ
  repair_type : String
  cost : ℤ
  effectiveness_score : ℚ
  contractor : String
  weather_delay_days : Nat
  lanes_affected : Nat
  condition_before : ℚ
  traffic_volume : ℤ
  deriving DecidableEq

/-- Running state of the per-segment maintenance scan: the global
`maintenance_id` counter, `last_repair_date` and `last_condition`. -/
structure MState where
  counter : Nat
  lastRepair : Option ℤ
  lastCond : ℚ
  deriving DecidableEq

/-- The `needs_repair` disjunction of the source: poor condition, too many
potholes, rapid deterioration, or (once a prior repair exists) more than
365 days since the last repair. -/
def needs_repair (lastRepairDate : Option ℤ) (lastCondition : ℚ) (row : CondRow) : Bool :=
  decide (row.condition_score < 60) || decide (5 < row.pothole_count)
    || decide (15 < lastCondition - row.condition_score)
    || (match lastRepairDate with
        | some d => decide (365 < row.date - d)
        | none => false)

/-- The repair-type priority chain with its base cost and effectiveness
baseline. -/
def repairInfo (row : CondRow) : String × ℤ × ℚ :=
  if row.condition_score < 40 then ("resurfacing", 50000, 0.9)
  else if 3 < row.pothole_count then ("pothole_patch", 5000, 0.7)
  else if 20 < row.cracking_percent then ("crack_sealing", 15000, 0.8)
  else ("preventive_maintenance", 8000, 0.6)

def contractorPool : List String :=
  ["ABC_Contractors", "XYZ_Construction", "Premier_Paving",
   "Metro_Maintenance", "Highway_Experts"]

/-- The maintenance record appended for a triggered repair, `cnt` being the
current value of the global `maintenance_id` counter. -/
def mkRec (noise : Nat → MNoise) (cnt : Nat) (row : CondRow) : MRec :=
  let info := repairInfo row
  let n := noise cnt
  let lane_factor : ℚ := (row.lanes : ℚ) * 0.2
  let traffic_factor : ℚ := (row.traffic_volume : ℚ) / 100000
  { maintenance_id := mkId cnt
    idNum := cnt
    road_id := row.road_id
    segment_id := row.segment_id
    date := row.date
    repair_type := info.1
    cost := pyInt ((info.2.1 : ℚ) * (1 + lane_factor + traffic_factor))
    effectiveness_score := info.2.2 + 0.1 * n.gEff
    contractor := contractorPool.get n.cIdx
    weather_delay_days := if 1 < row.precipitation then n.pWeather else 0
    lanes_affected := row.lanes
    condition_before := row.condition_score
    traffic_volume := row.traffic_volume }

/-- The per-segment scan of the maintenance generator: chronological replay
of a segment's condition rows with running state; on a trigger, append a
record, advance the counter, set the last-repair date and reset the last
known condition to `min 100 (score + 20)`; otherwise just track the score. -/
def genMaintSeg (noise : Nat → MNoise) : MState → List CondRow → MState × List MRec
  | s, [] => (s, [])
  | s, row :: rest =>
    if needs_repair s.lastRepair s.lastCond row then
      let m := mkRec noise s.counter row
      let out := genMaintSeg noise
        ⟨s.counter + 1, some row.date, min 100 (row.condition_score + 20)⟩ rest
      (out.1, m :: out.2)
    else
      genMaintSeg noise ⟨s.counter, s.lastRepair, row.condition_score⟩ rest

/-- Embedding of `pandas.unique` with an explicit seen-set accumulator: first
occurrences, in order of appearance. -/
def uniqueKeepAux (seen : List String) : List String → List String
  | [] => []
  | x :: xs => if x ∈ seen then uniqueKeepAux seen xs
               else x :: uniqueKeepAux (x :: seen) xs

def uniqueKeep (l : List String) : List String := uniqueKeepAux [] l

/-- The outer loop of `generate_maintenance_records`: for each distinct
segment id in order of appearance, scan that segment's rows sorted by date,
threading the global counter. -/
def maintLoop (noise : Nat → MNoise) (cond : List CondRow) :
    List String → Nat → List MRec
  | [], _ => []
  | sid :: rest, cnt =>
    let segData := (cond.filter (fun r => r.segment_id = sid)).insertionSort
      (fun a b => a.date ≤ b.date)
    let out := genMaintSeg noise ⟨cnt, none, 100⟩ segData
    out.2 ++ maintLoop noise cond rest out.1.counter

/-- Embedding of `generate_maintenance_records`: group the condition table by segment,
scan each group, global counter starting at 1. -/
def generate_maintenance_records (noise : Nat → MNoise) (cond : List CondRow) :
    List MRec :=
  maintLoop noise cond (uniqueKeep (cond.map (fun r => r.segment_id))) 1

/-- Noise pack for one traffic record: the multiplicative Gaussian and the
two uniform draws. -/
structure TNoise where
  gVol : ℚ
  uPeak : ℚ
  uTruck : ℚ
  deriving DecidableEq

structure TRec where
  road_id : String
  segment_id : String
  year : Nat
  month : Nat
  avg_daily_traffic : ℤ
  peak_hour_factor : ℚ
  truck_percentage : ℚ
  deriving DecidableEq

/-- Seasonal traffic multiplier keyed by calendar month. -/
def trafficSeasonal (month : Nat) : ℚ :=
  if month ∈ ([6, 7, 8] : List Nat) then 1.1
  else if month ∈ ([12, 1, 2] : List Nat) then 0.9
  else 1.0

/-- Linear year-over-year growth multiplier. -/
def trafficGrowth (year : Nat) : ℚ := 1 + ((year : ℚ) - 2020) * 0.02

/-- One row of the inner loop of `generate_traffic_data`. -/
def mkTRec (road : RoadRow) (year month : Nat) (n : TNoise) : TRec :=
  { road_id := road.road_id
    segment_id := road.segment_id
    year := year
    month := month
    avg_daily_traffic :=
      pyInt ((road.traffic_volume : ℚ) * trafficSeasonal month * trafficGrowth year
        * (1 + 0.1 * n.gVol))
    peak_hour_factor := 0.8 + 0.4 * n.uPeak
    truck_percentage := 0.05 + 0.1 * n.uTruck }

/-- Embedding of `generate_traffic_data`: for each network row and each (year, month) in
2020-2024 x 1-12, one record; takes only the network table (and its noise),
never the condition table. -/
def generate_traffic_data (noise : Nat → Nat → Nat → TNoise)
    (roads : List RoadRow) : List TRec :=
  roads.enum.flatMap fun rr =>
    (List.range 5).flatMap fun yi =>
      (List.range 12).map fun mi =>
        mkTRec rr.2 (2020 + yi) (mi + 1) (noise rr.1 yi mi)

/-- The noise streams consumed by one full generation pass. -/
structure Streams where
  segCounts : Nat → Nat
  roadNoise : Nat → Nat → RNoise
  condNoise : Nat → Nat → CNoise
  maintNoise : Nat → MNoise
  trafficNoise : Nat → Nat → Nat → TNoise

structure Tables where
  roads : List RoadRow
  cond : List CondRow
  maint : List MRec
  traffic : List TRec

/-- The whole of `main()`: the four stages in dependency order. -/
def runAll (st : Streams) : Tables :=
  let roads := generate_road_network st.segCounts st.roadNoise
  let cond := generate_pavement_condition_data st.condNoise roads
  let maint := generate_maintenance_records st.maintNoise cond
  let traffic := generate_traffic_data st.trafficNoise roads
  { roads := roads, cond := cond, maint := maint, traffic := traffic }

/-- A deterministic pseudo-random word stream (a 64-bit LCG), standing in
for numpy's seeded global generator: `np.random.seed(42)` fixes the seed,
after which every draw is a pure function of the seed and the draw's
position. -/
def lcg (n : Nat) : Nat := (6364136223846793005 * n + 1442695040888963407) % 2 ^ 64

/-- A draw in `[0, 1)` from the stream, at a position encoded by `Nat.pair`. -/
def unitDraw (n : Nat) : ℚ := (lcg n : ℚ) / 2 ^ 64

/-- A signed draw, standing in for a standard normal sample. -/
def gaussDraw (n : Nat) : ℚ := unitDraw n - 1/2

def finDraw (k : Nat) (n : Nat) (h : 0 < k) : Fin k :=
  ⟨lcg n % k, Nat.mod_lt _ h⟩

/-- All noise streams of one run, derived deterministically from the seed;
stage and position are encoded into the stream index with `Nat.pair`. -/
def mkStreams (seed : Nat) : Streams :=
  { segCounts := fun i => lcg (Nat.pair seed (Nat.pair 0 i)) % 81
    roadNoise := fun i j =>
      { gBaseLat := gaussDraw (Nat.pair seed (Nat.pair 1 (Nat.pair i (Nat.pair j 0))))
        gBaseLon := gaussDraw (Nat.pair seed (Nat.pair 1 (Nat.pair i (Nat.pair j 1))))
        gLat := gaussDraw (Nat.pair seed (Nat.pair 1 (Nat.pair i (Nat.pair j 2))))
        gLon := gaussDraw (Nat.pair seed (Nat.pair 1 (Nat.pair i (Nat.pair j 3))))
        laneIdx := finDraw 5 (Nat.pair seed (Nat.pair 1 (Nat.pair i (Nat.pair j 4)))) (by norm_num)
        typeIdx := finDraw 4 (Nat.pair seed (Nat.pair 1 (Nat.pair i (Nat.pair j 5)))) (by norm_num)
        gTraffic := gaussDraw (Nat.pair seed (Nat.pair 1 (Nat.pair i (Nat.pair j 6))))
        uLen := unitDraw (Nat.pair seed (Nat.pair 1 (Nat.pair i (Nat.pair j 7)))) }
    condNoise := fun i j =>
      { gScore := gaussDraw (Nat.pair seed (Nat.pair 2 (Nat.pair i (Nat.pair j 0))))
        gRough := gaussDraw (Nat.pair seed (Nat.pair 2 (Nat.pair i (Nat.pair j 1))))
        gCrack := gaussDraw (Nat.pair seed (Nat.pair 2 (Nat.pair i (Nat.pair j 2))))
        pPothole := lcg (Nat.pair seed (Nat.pair 2 (Nat.pair i (Nat.pair j 3)))) % 3
        ePrecip := unitDraw (Nat.pair seed (Nat.pair 2 (Nat.pair i (Nat.pair j 4))))
        pFreeze := lcg (Nat.pair seed (Nat.pair 2 (Nat.pair i (Nat.pair j 5)))) % 7 }
    maintNoise := fun i =>
      { pWeather := lcg (Nat.pair seed (Nat.pair 3 (Nat.pair i 0))) % 5
        cIdx := finDraw 5 (Nat.pair seed (Nat.pair 3 (Nat.pair i 1))) (by norm_num)
        gEff := gaussDraw (Nat.pair seed (Nat.pair 3 (Nat.pair i 2))) }
    trafficNoise := fun i j k =>
      { gVol := gaussDraw (Nat.pair seed (Nat.pair 4 (Nat.pair i (Nat.pair j (Nat.pair k 0)))))
        uPeak := unitDraw (Nat.pair seed (Nat.pair 4 (Nat.pair i (Nat.pair j (Nat.pair k 1)))))
        uTruck := unitDraw (Nat.pair seed (Nat.pair 4 (Nat.pair i (Nat.pair j (Nat.pair k 2))))) } }

/-- A small concrete stream pack used to evaluate the generators on one
road with one segment: all continuous draws are 0, all index picks are 0,
and only road 0 gets a (single) segment. -/
def stZero : Streams :=
  { segCounts := fun i => if i = 0 then 1 else 0
    roadNoise := fun _ _ => ⟨0, 0, 0, 0, ⟨0, by norm_num⟩, ⟨0, by norm_num⟩, 0, 0⟩
    condNoise := fun _ _ => ⟨0, 0, 0, 0, 0, 0⟩
    maintNoise := fun _ => ⟨0, ⟨0, by norm_num⟩, 0⟩
    trafficNoise := fun _ _ _ => ⟨0, 0, 0⟩ }

/-- Zero maintenance noise, for concrete evaluations. -/
def noiseZeroM : Nat → MNoise := fun _ => ⟨0, ⟨0, by norm_num⟩, 0⟩

/-- A condition row with score constantly 70, no potholes, low cracking. -/
def row70 : CondRow :=
  ⟨"R001", "R001_S001", 0, 2, 70, 120, 9, 0, 0, 0, 75000, "Highway", 0, 0⟩

/-- A condition row with score 30. -/
def row30 : CondRow :=
  ⟨"R001", "R001_S001", 0, 2, 30, 170, 21, 0, 0, 0, 75000, "Highway", 0, 0⟩

/-- The single network row produced by `generate_road_network` on `stZero`. -/
def roadZeroHead : RoadRow :=
  ⟨"R001", "R001_S001", "Highway", 2, 398283/10000, -197159/2000, 75000, 1/10⟩

/-- The first condition row produced by the pipeline on `stZero`. -/
def condZeroHead : CondRow :=
  ⟨"R001", "R001_S001", 0, 2, 421/5, 579/5, 47/10, 0, 0, 0, 75000, "Highway",
   398283/10000, -197159/2000⟩

/-- The first maintenance record produced by the pipeline on `stZero`. -/
def maintZeroHead : MRec :=
  ⟨[1, 0, 0, 0, 0, 0], 1, "R001", "R001_S001", 0, "preventive_maintenance", 17200,
   3/5, "ABC_Contractors", 0, 2, 421/5, 75000⟩

/-! ## Helper lemmas -/

lemma MState_counter (c : Nat) (lr : Option ℤ) (lc : ℚ) :
    (MState.mk c lr lc).counter = c := rfl

lemma MState_lastRepair (c : Nat) (lr : Option ℤ) (lc : ℚ) :
    (MState.mk c lr lc).lastRepair = lr := rfl

lemma MState_lastCond (c : Nat) (lr : Option ℤ) (lc : ℚ) :
    (MState.mk c lr lc).lastCond = lc := rfl

lemma pyInt_nonneg {q : ℚ} (h : 0 ≤ q) : 0 ≤ pyInt q := by
  unfold pyInt
  rw [if_neg (not_lt.mpr h)]
  exact Int.floor_nonneg.mpr h

lemma pyRound_ge (k : Nat) (q : ℚ) (m : ℤ) (h : (m : ℚ) ≤ q) :
    (m : ℚ) ≤ pyRound k q := by
  unfold pyRound
  have hs : (0:ℚ) < (10 : ℚ) ^ k := by positivity
  have hys : (m : ℚ) * (10:ℚ)^k ≤ q * (10:ℚ)^k :=
    mul_le_mul_of_nonneg_right h (le_of_lt hs)
  have hfm : m * (10:ℤ) ^ k ≤ ⌊q * (10:ℚ)^k⌋ := by
    refine Int.le_floor.mpr ?_
    push_cast
    exact hys
  have key : ∀ n : ℤ, ⌊q * (10:ℚ)^k⌋ ≤ n → (m : ℚ) ≤ (n : ℚ) / (10:ℚ)^k := by
    intro n hn
    rw [le_div_iff₀ hs]
    have hc : ((m * (10:ℤ) ^ k : ℤ) : ℚ) ≤ (n : ℚ) := by
      exact_mod_cast le_trans hfm hn
    push_cast at hc
    exact hc
  split
  · exact key _ le_rfl
  · split
    · exact key _ (by omega)
    · split
      · exact key _ le_rfl
      · exact key _ (by omega)

lemma pyRound_le (k : Nat) (q : ℚ) (m : ℤ) (h : q ≤ (m : ℚ)) :
    pyRound k q ≤ (m : ℚ) := by
  unfold pyRound
  have hs : (0:ℚ) < (10 : ℚ) ^ k := by positivity
  have hys : q * (10:ℚ)^k ≤ (m : ℚ) * (10:ℚ)^k :=
    mul_le_mul_of_nonneg_right h (le_of_lt hs)
  have hms : (m : ℚ) * (10:ℚ)^k = ((m * (10:ℤ) ^ k : ℤ) : ℚ) := by push_cast; ring
  have hf_le : ⌊q * (10:ℚ)^k⌋ ≤ m * (10:ℤ) ^ k := by
    have h1 : ⌊q * (10:ℚ)^k⌋ ≤ ⌊(m : ℚ) * (10:ℚ)^k⌋ := Int.floor_le_floor hys
    rwa [hms, Int.floor_intCast] at h1
  have keyf : (⌊q * (10:ℚ)^k⌋ : ℚ) / (10:ℚ)^k ≤ (m : ℚ) := by
    rw [div_le_iff₀ hs, hms]
    exact_mod_cast hf_le
  have keyf1 : 1/2 ≤ q * (10:ℚ)^k - ⌊q * (10:ℚ)^k⌋ →
      ((⌊q * (10:ℚ)^k⌋ + 1 : ℤ) : ℚ) / (10:ℚ)^k ≤ (m : ℚ) := by
    intro hr
    rw [div_le_iff₀ hs, hms]
    have hfy : (⌊q * (10:ℚ)^k⌋ : ℚ) ≤ q * (10:ℚ)^k - 1/2 := by linarith
    have hlt : (⌊q * (10:ℚ)^k⌋ : ℚ) < ((m * (10:ℤ)^k : ℤ) : ℚ) := by
      rw [← hms]; linarith
    have hlt2 : ⌊q * (10:ℚ)^k⌋ < m * (10:ℤ)^k := by exact_mod_cast hlt
    exact_mod_cast hlt2
  split
  · exact keyf
  · next h1 =>
    split
    · next h2 => exact keyf1 (by linarith)
    · split
      · exact keyf
      · exact keyf1 (by push_neg at h1; linarith)

lemma ofDigits_replicate_zero (k : Nat) :
    Nat.ofDigits 10 (List.replicate k 0) = 0 := by
  induction k with
  | zero => simp [Nat.ofDigits]
  | succ k ih => simp [List.replicate, Nat.ofDigits, ih]

lemma ofDigits_digitsAux (fuel n : Nat) (h : n ≤ fuel) :
    Nat.ofDigits 10 (digitsAux fuel n) = n := by
  induction fuel generalizing n with
  | zero =>
    interval_cases n
    simp [digitsAux, Nat.ofDigits]
  | succ fuel ih =>
    match n with
    | 0 => simp [digitsAux, Nat.ofDigits]
    | m + 1 =>
      have hdiv : (m + 1) / 10 ≤ fuel := by
        have h1 : (m + 1) / 10 < m + 1 := Nat.div_lt_self (Nat.succ_pos m) (by norm_num)
        omega
      simp only [digitsAux, Nat.ofDigits_cons, ih _ hdiv]
      have := Nat.mod_add_div (m + 1) 10
      omega

lemma ofDigits_decDigits (n : Nat) : Nat.ofDigits 10 (decDigits n) = n :=
  ofDigits_digitsAux n n le_rfl

lemma ofDigits_mkId (n : Nat) : Nat.ofDigits 10 (mkId n) = n := by
  unfold mkId
  rw [Nat.ofDigits_append, ofDigits_decDigits, ofDigits_replicate_zero]
  ring

lemma mkId_inj {m n : Nat} (h : mkId m = mkId n) : m = n := by
  have h2 := congrArg (Nat.ofDigits 10) h
  rwa [ofDigits_mkId, ofDigits_mkId] at h2


lemma snd_mem_of_mem_enum {α : Type} {l : List α} {p : Nat × α} (h : p ∈ l.enum) :
    p.2 ∈ l := by
  rw [List.mem_enum_iff_get?] at h
  exact List.get?_mem h

lemma get_mem_enum {α : Type} (l : List α) (i : Nat) (h : i < l.length) :
    (i, l.get ⟨i, h⟩) ∈ l.enum := by
  rw [List.mk_mem_enum_iff_get?]
  exact List.get?_eq_get h

lemma pyRound_nonneg {k : Nat} {q : ℚ} (h : 0 ≤ q) : 0 ≤ pyRound k q := by
  have h2 := pyRound_ge k q 0 (by exact_mod_cast h)
  simpa using h2

lemma genMaintSeg_append (noise : Nat → MNoise) (s : MState) (xs ys : List CondRow) :
    genMaintSeg noise s (xs ++ ys) =
      ((genMaintSeg noise (genMaintSeg noise s xs).1 ys).1,
       (genMaintSeg noise s xs).2 ++ (genMaintSeg noise (genMaintSeg noise s xs).1 ys).2) := by
  induction xs generalizing s with
  | nil => simp [genMaintSeg]
  | cons r rest ih =>
    by_cases h : needs_repair s.lastRepair s.lastCond r
    · simp [genMaintSeg, h, ih]
    · simp [genMaintSeg, h, ih]

lemma genMaintSeg_counter (noise : Nat → MNoise) (s : MState) (rows : List CondRow) :
    (genMaintSeg noise s rows).1.counter
      = s.counter + (genMaintSeg noise s rows).2.length := by
  induction rows generalizing s with
  | nil => simp [genMaintSeg]
  | cons r rest ih =>
    by_cases h : needs_repair s.lastRepair s.lastCond r
    · simp only [genMaintSeg, if_pos h, List.length_cons]
      rw [ih]
      simp only [MState_counter]
      omega
    · simp only [genMaintSeg, if_neg h]
      rw [ih]

lemma genMaintSeg_idNum_bounds (noise : Nat → MNoise) (s : MState) (rows : List CondRow) :
    ∀ m ∈ (genMaintSeg noise s rows).2,
      s.counter ≤ m.idNum ∧ m.idNum < (genMaintSeg noise s rows).1.counter := by
  induction rows generalizing s with
  | nil => simp [genMaintSeg]
  | cons r rest ih =>
    by_cases h : needs_repair s.lastRepair s.lastCond r
    · simp only [genMaintSeg, if_pos h, List.mem_cons]
      intro m hm
      have hc := genMaintSeg_counter noise
        ⟨s.counter + 1, some r.date, min 100 (r.condition_score + 20)⟩ rest
      simp only [MState_counter] at hc
      rcases hm with hm | hm
      · subst hm
        refine ⟨by simp [mkRec], ?_⟩
        simp only [mkRec]
        omega
      · have hb := ih ⟨s.counter + 1, some r.date, min 100 (r.condition_score + 20)⟩ m hm
        simp only [MState_counter] at hb
        exact ⟨by omega, hb.2⟩
    · simp only [genMaintSeg, if_neg h]
      intro m hm
      have hb := ih ⟨s.counter, s.lastRepair, r.condition_score⟩ m hm
      exact hb

lemma genMaintSeg_pairwise (noise : Nat → MNoise) (s : MState) (rows : List CondRow) :
    ((genMaintSeg noise s rows).2).Pairwise (fun a b => a.idNum < b.idNum) := by
  induction rows generalizing s with
  | nil => simp [genMaintSeg]
  | cons r rest ih =>
    by_cases h : needs_repair s.lastRepair s.lastCond r
    · simp only [genMaintSeg, if_pos h]
      refine List.Pairwise.cons ?_ (ih _)
      intro b hb
      have hlb := (genMaintSeg_idNum_bounds noise
        ⟨s.counter + 1, some r.date, min 100 (r.condition_score + 20)⟩ rest b hb).1
      simp only [MState_counter] at hlb
      simp only [mkRec]
      omega
    · simp only [genMaintSeg, if_neg h]
      exact ih _

lemma genMaintSeg_from_rows (noise : Nat → MNoise) (s : MState) (rows : List CondRow) :
    ∀ m ∈ (genMaintSeg noise s rows).2, ∃ k r, r ∈ rows ∧ m = mkRec noise k r := by
  induction rows generalizing s with
  | nil => simp [genMaintSeg]
  | cons r rest ih =>
    by_cases h : needs_repair s.lastRepair s.lastCond r
    · simp only [genMaintSeg, if_pos h, List.mem_cons]
      intro m hm
      rcases hm with hm | hm
      · exact ⟨s.counter, r, Or.inl rfl, hm⟩
      · obtain ⟨k, r2, hr2, hm2⟩ := ih _ m hm
        exact ⟨k, r2, Or.inr hr2, hm2⟩
    · simp only [genMaintSeg, if_neg h]
      intro m hm
      obtain ⟨k, r2, hr2, hm2⟩ := ih _ m hm
      exact ⟨k, r2, List.mem_cons_of_mem _ hr2, hm2⟩

lemma maintLoop_idNum_lb (noise : Nat → MNoise) (cond : List CondRow) :
    ∀ (sids : List String) (cnt : Nat),
      ∀ m ∈ maintLoop noise cond sids cnt, cnt ≤ m.idNum := by
  intro sids
  induction sids with
  | nil => simp [maintLoop]
  | cons sid rest ih =>
    intro cnt m hm
    simp only [maintLoop, List.mem_append] at hm
    rcases hm with hm | hm
    · exact (genMaintSeg_idNum_bounds noise _ _ m hm).1
    · have h1 := ih _ m hm
      have h2 := genMaintSeg_counter noise
        ⟨cnt, none, 100⟩
        ((cond.filter (fun r => r.segment_id = sid)).insertionSort
          (fun a b => a.date ≤ b.date))
      simp only [MState_counter] at h2
      omega

lemma maintLoop_pairwise (noise : Nat → MNoise) (cond : List CondRow) :
    ∀ (sids : List String) (cnt : Nat),
      (maintLoop noise cond sids cnt).Pairwise (fun a b => a.idNum < b.idNum) := by
  intro sids
  induction sids with
  | nil => simp [maintLoop]
  | cons sid rest ih =>
    intro cnt
    simp only [maintLoop]
    rw [List.pairwise_append]
    refine ⟨genMaintSeg_pairwise noise _ _, ih _, ?_⟩
    intro a ha b hb
    have h1 := (genMaintSeg_idNum_bounds noise ⟨cnt, none, 100⟩ _ a ha).2
    have h2 := maintLoop_idNum_lb noise cond rest _ b hb
    exact lt_of_lt_of_le h1 h2

lemma maintLoop_from_cond (noise : Nat → MNoise) (cond : List CondRow) :
    ∀ (sids : List String) (cnt : Nat),
      ∀ m ∈ maintLoop noise cond sids cnt, ∃ k r, r ∈ cond ∧ m = mkRec noise k r := by
  intro sids
  induction sids with
  | nil => simp [maintLoop]
  | cons sid rest ih =>
    intro cnt m hm
    simp only [maintLoop, List.mem_append] at hm
    rcases hm with hm | hm
    · obtain ⟨k, r, hr, hmk⟩ := genMaintSeg_from_rows noise _ _ m hm
      rw [List.mem_insertionSort, List.mem_filter] at hr
      exact ⟨k, r, hr.1, hmk⟩
    · exact ih _ m hm

lemma mem_maint_struct (noise : Nat → MNoise) (cond : List CondRow) :
    ∀ m ∈ generate_maintenance_records noise cond,
      ∃ k r, r ∈ cond ∧ m = mkRec noise k r := by
  intro m hm
  exact maintLoop_from_cond noise cond _ _ m hm

lemma mem_cond_struct (noise : Nat → Nat → CNoise) (roads : List RoadRow) :
    ∀ c ∈ generate_pavement_condition_data noise roads,
      ∃ nn ym road, road ∈ roads ∧ c = mkCondRow nn ym road := by
  intro c hc
  simp only [generate_pavement_condition_data, List.mem_flatMap, List.mem_map] at hc
  obtain ⟨pd, _hpd, rr, hrr, hceq⟩ := hc
  exact ⟨_, _, rr.2, snd_mem_of_mem_enum hrr, hceq.symm⟩

lemma mem_roads_struct (segCount : Nat → Nat) (noise : Nat → Nat → RNoise) :
    ∀ r ∈ generate_road_network segCount noise,
      ∃ ri si, r = mkRoadRow ("R" ++ padNum 3 (ri + 1)) (si + 1) (noise ri si) := by
  intro r hr
  simp only [generate_road_network, List.mem_flatMap, List.mem_map, List.mem_range] at hr
  obtain ⟨ri, _hri, si, _hsi, hreq⟩ := hr
  exact ⟨ri, si, hreq.symm⟩

lemma mkRoadRow_traffic_lb (name : String) (k : Nat) (nn : RNoise) :
    1000 ≤ (mkRoadRow name k nn).traffic_volume := by
  simp only [mkRoadRow]
  exact le_max_left _ _

lemma mkCondRow_traffic (nn : CNoise) (ym : Nat × Nat) (road : RoadRow) :
    (mkCondRow nn ym road).traffic_volume = road.traffic_volume := rfl

lemma mkRec_cost_nonneg (noise : Nat → MNoise) (k : Nat) (row : CondRow)
    (h : 0 ≤ row.traffic_volume) : 0 ≤ (mkRec noise k row).cost := by
  simp only [mkRec]
  apply pyInt_nonneg
  have hb : (0:ℚ) ≤ ((repairInfo row).2.1 : ℚ) := by
    unfold repairInfo
    split_ifs <;> norm_num
  have ht : (0:ℚ) ≤ (row.traffic_volume : ℚ) := by exact_mod_cast h
  have hl : (0:ℚ) ≤ (row.lanes : ℚ) := by positivity
  have hf : (0:ℚ) ≤ 1 + (row.lanes : ℚ) * 0.2 + (row.traffic_volume : ℚ) / 100000 := by
    have h100 : (0:ℚ) ≤ (row.traffic_volume : ℚ) / 100000 := by positivity
    linarith
  exact mul_nonneg hb hf

lemma needs_repair_iff (lr : Option ℤ) (lc : ℚ) (row : CondRow) :
    needs_repair lr lc row = true ↔
      (row.condition_score < 60 ∨ 5 < row.pothole_count
        ∨ 15 < lc - row.condition_score
        ∨ ∃ d, lr = some d ∧ 365 < row.date - d) := by
  cases lr <;> simp [needs_repair, or_assoc]

lemma genMaintSeg_singleton_len (noise : Nat → MNoise) (s : MState) (r : CondRow) :
    (genMaintSeg noise s [r]).2.length
      = if needs_repair s.lastRepair s.lastCond r then 1 else 0 := by
  by_cases hn : needs_repair s.lastRepair s.lastCond r <;> simp [genMaintSeg, hn]

lemma genMaintSeg_singleton_state (noise : Nat → MNoise) (s : MState) (r : CondRow) :
    (genMaintSeg noise s [r]).1
      = if needs_repair s.lastRepair s.lastCond r
        then ⟨s.counter + 1, some r.date, min 100 (r.condition_score + 20)⟩
        else ⟨s.counter, s.lastRepair, r.condition_score⟩ := by
  by_cases hn : needs_repair s.lastRepair s.lastCond r <;> simp [genMaintSeg, hn]

/-! ## Claims -/

/-- C1: replaying a segment's condition observations in chronological order
with running state (last repair date initially unset, last known condition
initially 100), a maintenance event is created at observation `i` if and
only if the observed score is below 60, or the pothole count exceeds 5, or
the drop from the running last known condition exceeds 15, or a prior
repair exists and more than 365 days have elapsed since it. -/
theorem C1_trigger_iff (noise : Nat → MNoise) (c : Nat) (rows : List CondRow)
    (i : Nat) (h : i < rows.length) :
    ((genMaintSeg noise ⟨c, none, 100⟩ (rows.take (i + 1))).2.length
        = (genMaintSeg noise ⟨c, none, 100⟩ (rows.take i)).2.length + 1)
      ↔ ((rows.get ⟨i, h⟩).condition_score < 60
          ∨ 5 < (rows.get ⟨i, h⟩).pothole_count
          ∨ 15 < (genMaintSeg noise ⟨c, none, 100⟩ (rows.take i)).1.lastCond
                - (rows.get ⟨i, h⟩).condition_score
          ∨ ∃ d, (genMaintSeg noise ⟨c, none, 100⟩ (rows.take i)).1.lastRepair = some d
                ∧ 365 < (rows.get ⟨i, h⟩).date - d) := by
  have htake : rows.take (i + 1) = rows.take i ++ [rows.get ⟨i, h⟩] :=
    (List.take_concat_get' rows i h).symm
  rw [htake, genMaintSeg_append]
  simp only [List.length_append, genMaintSeg_singleton_len]
  rw [← needs_repair_iff]
  by_cases hn : needs_repair (genMaintSeg noise ⟨c, none, 100⟩ (rows.take i)).1.lastRepair
      (genMaintSeg noise ⟨c, none, 100⟩ (rows.take i)).1.lastCond (rows.get ⟨i, h⟩)
  · simp [hn]
  · simp [hn]

/-- Witness for C1 at a concrete one-observation segment. -/
theorem C1_trigger_iff_witness :
    0 < ([row70] : List CondRow).length ∧
    (((genMaintSeg noiseZeroM ⟨1, none, 100⟩ ([row70].take (0 + 1))).2.length
        = (genMaintSeg noiseZeroM ⟨1, none, 100⟩ ([row70].take 0)).2.length + 1)
      ↔ (row70.condition_score < 60
          ∨ 5 < row70.pothole_count
          ∨ 15 < (genMaintSeg noiseZeroM ⟨1, none, 100⟩ ([row70].take 0)).1.lastCond
                - row70.condition_score
          ∨ ∃ d, (genMaintSeg noiseZeroM ⟨1, none, 100⟩ ([row70].take 0)).1.lastRepair
                  = some d
                ∧ 365 < row70.date - d)) :=
  ⟨by decide, C1_trigger_iff noiseZeroM 1 [row70] 0 (by decide)⟩

/-- C7: at each observation of the scan, on a triggered repair the running
state becomes (counter + 1, the observation's date as last repair, last
known condition reset to min 100 (score + 20)); with no trigger the last
known condition becomes the observed score and the last-repair date is
unchanged. -/
theorem C7_state_update (noise : Nat → MNoise) (c : Nat) (rows : List CondRow)
    (i : Nat) (h : i < rows.length) :
    (genMaintSeg noise ⟨c, none, 100⟩ (rows.take (i + 1))).1
      = (if needs_repair (genMaintSeg noise ⟨c, none, 100⟩ (rows.take i)).1.lastRepair
            (genMaintSeg noise ⟨c, none, 100⟩ (rows.take i)).1.lastCond (rows.get ⟨i, h⟩)
         then ⟨(genMaintSeg noise ⟨c, none, 100⟩ (rows.take i)).1.counter + 1,
               some (rows.get ⟨i, h⟩).date,
               min 100 ((rows.get ⟨i, h⟩).condition_score + 20)⟩
         else ⟨(genMaintSeg noise ⟨c, none, 100⟩ (rows.take i)).1.counter,
               (genMaintSeg noise ⟨c, none, 100⟩ (rows.take i)).1.lastRepair,
               (rows.get ⟨i, h⟩).condition_score⟩) := by
  have htake : rows.take (i + 1) = rows.take i ++ [rows.get ⟨i, h⟩] :=
    (List.take_concat_get' rows i h).symm
  rw [htake, genMaintSeg_append]
  exact genMaintSeg_singleton_state noise _ _

/-- Witness for C7 at a concrete one-observation segment. -/
theorem C7_state_update_witness :
    0 < ([row70] : List CondRow).length ∧
    (genMaintSeg noiseZeroM ⟨1, none, 100⟩ ([row70].take (0 + 1))).1
      = (if needs_repair (genMaintSeg noiseZeroM ⟨1, none, 100⟩ ([row70].take 0)).1.lastRepair
            (genMaintSeg noiseZeroM ⟨1, none, 100⟩ ([row70].take 0)).1.lastCond row70
         then ⟨(genMaintSeg noiseZeroM ⟨1, none, 100⟩ ([row70].take 0)).1.counter + 1,
               some row70.date, min 100 (row70.condition_score + 20)⟩
         else ⟨(genMaintSeg noiseZeroM ⟨1, none, 100⟩ ([row70].take 0)).1.counter,
               (genMaintSeg noiseZeroM ⟨1, none, 100⟩ ([row70].take 0)).1.lastRepair,
               row70.condition_score⟩) :=
  ⟨by decide, C7_state_update noiseZeroM 1 [row70] 0 (by decide)⟩

/-- C2: the repair category is chosen by the priority chain score < 40 →
resurfacing (base cost 50000, effectiveness 0.9); else potholes > 3 →
pothole_patch (5000, 0.7); else cracking > 20 → crack_sealing (15000, 0.8);
else preventive_maintenance (8000, 0.6).  In particular an observation with
score 30 seen from last known condition 100 triggers immediately and records
a resurfacing repair. -/
theorem C2_repair_category (row : CondRow) :
    (row.condition_score < 40 → repairInfo row = ("resurfacing", 50000, 0.9))
    ∧ (¬ row.condition_score < 40 → 3 < row.pothole_count →
        repairInfo row = ("pothole_patch", 5000, 0.7))
    ∧ (¬ row.condition_score < 40 → ¬ 3 < row.pothole_count →
        20 < row.cracking_percent →
        repairInfo row = ("crack_sealing", 15000, 0.8))
    ∧ (¬ row.condition_score < 40 → ¬ 3 < row.pothole_count →
        ¬ 20 < row.cracking_percent →
        repairInfo row = ("preventive_maintenance", 8000, 0.6))
    ∧ (∀ (noise : Nat → MNoise) (c : Nat) (rest : List CondRow),
        row.condition_score = 30 →
        (genMaintSeg noise ⟨c, none, 100⟩ (row :: rest)).2.head?
            = some (mkRec noise c row)
          ∧ (mkRec noise c row).repair_type = "resurfacing") := by
  refine ⟨?_, ?_, ?_, ?_, ?_⟩
  · intro h1
    simp [repairInfo, h1]
  · intro h1 h2
    simp [repairInfo, h1, h2]
  · intro h1 h2 h3
    simp [repairInfo, h1, h2, h3]
  · intro h1 h2 h3
    simp [repairInfo, h1, h2, h3]
  · intro noise c rest hs
    have hn : needs_repair (none : Option ℤ) 100 row = true := by
      rw [needs_repair_iff]
      exact Or.inl (by rw [hs]; norm_num)
    constructor
    · simp only [genMaintSeg, MState_lastRepair, MState_lastCond, MState_counter, hn,
        if_true, List.head?_cons]
    · norm_num [mkRec, repairInfo, hs]

/-- Witness for C2 at a concrete score-30 observation. -/
theorem C2_repair_category_witness :
    (row30.condition_score < 40 ∧ repairInfo row30 = ("resurfacing", 50000, 0.9))
    ∧ (row30.condition_score = 30
        ∧ (genMaintSeg noiseZeroM ⟨1, none, 100⟩ (row30 :: [])).2.head?
            = some (mkRec noiseZeroM 1 row30)
        ∧ (mkRec noiseZeroM 1 row30).repair_type = "resurfacing") :=
  ⟨⟨by decide, (C2_repair_category row30).1 (by decide)⟩,
   ⟨by decide, (C2_repair_category row30).2.2.2.2 noiseZeroM 1 [] (by decide)⟩⟩

/-- Counterexample to C3: a segment whose only observation has score 70 and
zero potholes (replayed from the initial state: no prior repair, last known
condition 100) already records a repair at the first observation, because
the drop 100 - 70 = 30 exceeds 15; C3 claims the first observation triggers
no repair. -/
theorem C3_counterexample :
    (genMaintSeg noiseZeroM ⟨1, none, 100⟩ [row70]).2.length = 1
    ∧ ((genMaintSeg noiseZeroM ⟨1, none, 100⟩ [row70]).2.map
        (fun m => m.repair_type)) = ["preventive_maintenance"] := by
  constructor <;> decide

/-- C3 (amended): for a segment whose score is constantly 70 with zero
potholes (and cracking at most 20), every observation — including the first
— triggers a repair via the rapid-deterioration condition (the drop from
100, then from the post-repair reset value 90, always exceeds 15); each
triggered repair is of the preventive_maintenance category, and the annual
rule is never needed. -/
theorem C3_amended (noise : Nat → MNoise) (rows : List CondRow) (c : Nat)
    (hrows : ∀ r ∈ rows, r.condition_score = 70 ∧ r.pothole_count = 0
      ∧ r.cracking_percent ≤ 20) :
    (genMaintSeg noise ⟨c, none, 100⟩ rows).2.length = rows.length
    ∧ ∀ m ∈ (genMaintSeg noise ⟨c, none, 100⟩ rows).2,
        m.repair_type = "preventive_maintenance" := by
  have H : ∀ (rows2 : List CondRow),
      (∀ r ∈ rows2, r.condition_score = 70 ∧ r.pothole_count = 0
        ∧ r.cracking_percent ≤ 20) →
      ∀ s : MState, 85 < s.lastCond →
        (genMaintSeg noise s rows2).2.length = rows2.length
        ∧ ∀ m ∈ (genMaintSeg noise s rows2).2,
            m.repair_type = "preventive_maintenance" := by
    intro rows2
    induction rows2 with
    | nil =>
      intro _ s _
      simp [genMaintSeg]
    | cons r rest ih =>
      intro h2 s hs
      obtain ⟨h70, hp, hc20⟩ := h2 r (List.mem_cons_self _ _)
      have hrest := fun r2 hr2 => h2 r2 (List.mem_cons_of_mem _ hr2)
      have hn : needs_repair s.lastRepair s.lastCond r = true := by
        rw [needs_repair_iff]
        exact Or.inr (Or.inr (Or.inl (by rw [h70]; linarith)))
      have hnext : (85:ℚ) < (min 100 (r.condition_score + 20)) := by
        rw [h70]
        norm_num
      have ihr := ih hrest ⟨s.counter + 1, some r.date,
        min 100 (r.condition_score + 20)⟩ (by simpa [MState_lastCond] using hnext)
      have htype : repairInfo r = ("preventive_maintenance", 8000, 0.6) := by
        unfold repairInfo
        rw [h70, hp]
        rw [if_neg (by norm_num), if_neg (by norm_num), if_neg (not_lt.mpr hc20)]
      constructor
      · simp only [genMaintSeg, hn, if_true, List.length_cons]
        rw [ihr.1]
      · simp only [genMaintSeg, hn, if_true, List.mem_cons]
        intro m hm
        rcases hm with hm | hm
        · subst hm
          simp [mkRec, htype]
        · exact ihr.2 m hm
  exact H rows hrows ⟨c, none, 100⟩ (by norm_num)

/-- Witness for the amended C3 at a concrete one-observation segment. -/
theorem C3_amended_witness :
    (∀ r ∈ ([row70] : List CondRow), r.condition_score = 70 ∧ r.pothole_count = 0
      ∧ r.cracking_percent ≤ 20)
    ∧ ((genMaintSeg noiseZeroM ⟨1, none, 100⟩ [row70]).2.length
        = ([row70] : List CondRow).length
      ∧ ∀ m ∈ (genMaintSeg noiseZeroM ⟨1, none, 100⟩ [row70]).2,
          m.repair_type = "preventive_maintenance") :=
  ⟨by decide, C3_amended noiseZeroM [row70] 1 (by decide)⟩

/-- C6: maintenance identifiers come from one global counter across the
whole table: the numeric ids of the full output are strictly increasing in
output order, each record's zero-padded identifier is the padded numeral of
its numeric id, and the padded identifiers are pairwise distinct. -/
theorem C6_global_ids (noise : Nat → MNoise) (cond : List CondRow) :
    (generate_maintenance_records noise cond).Pairwise
        (fun a b => a.idNum < b.idNum)
    ∧ (∀ m ∈ generate_maintenance_records noise cond,
        m.maintenance_id = mkId m.idNum)
    ∧ (generate_maintenance_records noise cond).Pairwise
        (fun a b => a.maintenance_id ≠ b.maintenance_id) := by
  refine ⟨maintLoop_pairwise noise cond _ _, ?_, ?_⟩
  · intro m hm
    obtain ⟨k, r, _, rfl⟩ := mem_maint_struct noise cond m hm
    simp [mkRec]
  · have hp := maintLoop_pairwise noise cond
      (uniqueKeep (cond.map (fun r => r.segment_id))) 1
    refine List.Pairwise.imp_of_mem ?_ hp
    intro a b ha hb hlt heq
    obtain ⟨k1, r1, _, rfl⟩ := mem_maint_struct noise cond a ha
    obtain ⟨k2, r2, _, rfl⟩ := mem_maint_struct noise cond b hb
    simp only [mkRec] at hlt heq
    exact absurd (mkId_inj heq) (by omega)

lemma mkCondRow_score_lb (nn : CNoise) (ym : Nat × Nat) (road : RoadRow) :
    0 ≤ (mkCondRow nn ym road).condition_score := by
  simp only [mkCondRow]
  exact pyRound_nonneg (le_max_left _ _)

lemma mkCondRow_score_ub (nn : CNoise) (ym : Nat × Nat) (road : RoadRow) :
    (mkCondRow nn ym road).condition_score ≤ 100 := by
  simp only [mkCondRow]
  refine le_trans (pyRound_le 1 _ 100 ?_) (by norm_num)
  push_cast
  exact max_le (by norm_num) (min_le_left _ _)

lemma mkCondRow_cracking_lb (nn : CNoise) (ym : Nat × Nat) (road : RoadRow) :
    0 ≤ (mkCondRow nn ym road).cracking_percent := by
  simp only [mkCondRow]
  exact pyRound_nonneg (le_max_left _ _)

lemma mkCondRow_pothole_lb (nn : CNoise) (ym : Nat × Nat) (road : RoadRow) :
    0 ≤ (mkCondRow nn ym road).pothole_count := by
  simp only [mkCondRow]
  exact le_max_left _ _

lemma mkCondRow_roughness_lb (nn : CNoise) (ym : Nat × Nat) (road : RoadRow) :
    50 ≤ (mkCondRow nn ym road).roughness_index := by
  simp only [mkCondRow]
  refine le_trans (by norm_num) (pyRound_ge 1 _ 50 ?_)
  push_cast
  exact le_max_left _ _

/-- C4: every generated condition observation has score in [0, 100],
non-negative pothole count, freeze-thaw cycle count and cracking
percentage, and every generated maintenance cost is non-negative. -/
theorem C4_nonneg_bounds (st : Streams) :
    (∀ c ∈ (runAll st).cond,
        0 ≤ c.condition_score ∧ c.condition_score ≤ 100
        ∧ 0 ≤ c.pothole_count ∧ 0 ≤ c.freeze_thaw_cycles ∧ 0 ≤ c.cracking_percent)
    ∧ (∀ m ∈ (runAll st).maint, 0 ≤ m.cost) := by
  constructor
  · intro c hc
    simp only [runAll] at hc
    obtain ⟨nn, ym, road, _hroad, rfl⟩ := mem_cond_struct _ _ c hc
    exact ⟨mkCondRow_score_lb nn ym road, mkCondRow_score_ub nn ym road,
      mkCondRow_pothole_lb nn ym road, Nat.zero_le _, mkCondRow_cracking_lb nn ym road⟩
  · intro m hm
    simp only [runAll] at hm
    obtain ⟨k, r, hr, rfl⟩ := mem_maint_struct _ _ m hm
    apply mkRec_cost_nonneg
    obtain ⟨nn, ym, road, hroad, rfl⟩ := mem_cond_struct _ _ r hr
    rw [mkCondRow_traffic]
    obtain ⟨ri, si, rfl⟩ := mem_roads_struct _ _ road hroad
    exact le_trans (by norm_num) (mkRoadRow_traffic_lb _ _ _)

/-- Witness for C4: the first condition row and the first maintenance
record of the pipeline run on the zero streams. -/
theorem C4_nonneg_bounds_witness :
    (condZeroHead ∈ (runAll stZero).cond ∧ maintZeroHead ∈ (runAll stZero).maint)
    ∧ (0 ≤ condZeroHead.condition_score ∧ condZeroHead.condition_score ≤ 100
        ∧ 0 ≤ condZeroHead.pothole_count ∧ 0 ≤ condZeroHead.freeze_thaw_cycles
        ∧ 0 ≤ condZeroHead.cracking_percent)
    ∧ 0 ≤ maintZeroHead.cost :=
  ⟨⟨by decide, by decide⟩,
   (C4_nonneg_bounds stZero).1 condZeroHead (by decide),
   (C4_nonneg_bounds stZero).2 maintZeroHead (by decide)⟩

/-- C5: the generation pass is a deterministic function of the seed: with
the seed fixed, two independent full runs (network, condition, maintenance
and traffic stages) produce identical output tables. -/
theorem C5_deterministic (s1 s2 : Nat) (h : s1 = s2) :
    runAll (mkStreams s1) = runAll (mkStreams s2) := by
  rw [h]

/-- Witness for C5 at the source's seed 42. -/
theorem C5_deterministic_witness :
    (42 : Nat) = 42 ∧ runAll (mkStreams 42) = runAll (mkStreams 42) :=
  ⟨rfl, C5_deterministic 42 42 rfl⟩

/-- C10: every generated condition observation has roughness index at least
50, and every generated road segment has traffic-volume baseline at least
1000. -/
theorem C10_floors :
    (∀ (sc : Nat → Nat) (nn : Nat → Nat → RNoise),
        ∀ r ∈ generate_road_network sc nn, 1000 ≤ r.traffic_volume)
    ∧ (∀ (cn : Nat → Nat → CNoise) (roads : List RoadRow),
        ∀ c ∈ generate_pavement_condition_data cn roads, 50 ≤ c.roughness_index) := by
  constructor
  · intro sc nn r hr
    obtain ⟨ri, si, rfl⟩ := mem_roads_struct sc nn r hr
    exact mkRoadRow_traffic_lb _ _ _
  · intro cn roads c hc
    obtain ⟨nn2, ym, road, _h, rfl⟩ := mem_cond_struct cn roads c hc
    exact mkCondRow_roughness_lb nn2 ym road

/-- Witness for C10 at the zero-stream run. -/
theorem C10_floors_witness :
    (roadZeroHead ∈ generate_road_network stZero.segCounts stZero.roadNoise
      ∧ condZeroHead ∈ generate_pavement_condition_data stZero.condNoise
          (generate_road_network stZero.segCounts stZero.roadNoise))
    ∧ 1000 ≤ roadZeroHead.traffic_volume ∧ 50 ≤ condZeroHead.roughness_index :=
  ⟨⟨by decide, by decide⟩,
   C10_floors.1 stZero.segCounts stZero.roadNoise roadZeroHead (by decide),
   C10_floors.2 stZero.condNoise
     (generate_road_network stZero.segCounts stZero.roadNoise) condZeroHead (by decide)⟩

/-- C9: every segment's identifier extends its road identifier (road id
plus sequence suffix), and every condition observation and maintenance
event carries a (road_id, segment_id) pair taken from a row of the network
table. -/
theorem C9_referential_integrity (st : Streams) :
    (∀ r ∈ (runAll st).roads, ∃ t, r.segment_id = r.road_id ++ t)
    ∧ (∀ c ∈ (runAll st).cond, ∃ r ∈ (runAll st).roads,
        c.road_id = r.road_id ∧ c.segment_id = r.segment_id)
    ∧ (∀ m ∈ (runAll st).maint, ∃ r ∈ (runAll st).roads,
        m.road_id = r.road_id ∧ m.segment_id = r.segment_id) := by
  refine ⟨?_, ?_, ?_⟩
  · intro r hr
    simp only [runAll] at hr
    obtain ⟨ri, si, rfl⟩ := mem_roads_struct _ _ r hr
    exact ⟨"_S" ++ padNum 3 (si + 1), by simp [mkRoadRow, String.append_assoc]⟩
  · intro c hc
    simp only [runAll] at hc ⊢
    obtain ⟨nn, ym, road, hroad, rfl⟩ := mem_cond_struct _ _ c hc
    exact ⟨road, hroad, rfl, rfl⟩
  · intro m hm
    simp only [runAll] at hm ⊢
    obtain ⟨k, r, hr, rfl⟩ := mem_maint_struct _ _ m hm
    obtain ⟨nn, ym, road, hroad, rfl⟩ := mem_cond_struct _ _ r hr
    exact ⟨road, hroad, rfl, rfl⟩

/-- Witness for C9 at the zero-stream run. -/
theorem C9_referential_integrity_witness :
    (roadZeroHead ∈ (runAll stZero).roads ∧ condZeroHead ∈ (runAll stZero).cond
      ∧ maintZeroHead ∈ (runAll stZero).maint)
    ∧ (∃ t, roadZeroHead.segment_id = roadZeroHead.road_id ++ t)
    ∧ (∃ r ∈ (runAll stZero).roads,
        condZeroHead.road_id = r.road_id ∧ condZeroHead.segment_id = r.segment_id)
    ∧ (∃ r ∈ (runAll stZero).roads,
        maintZeroHead.road_id = r.road_id ∧ maintZeroHead.segment_id = r.segment_id) :=
  ⟨⟨by decide, by decide, by decide⟩,
   (C9_referential_integrity stZero).1 roadZeroHead (by decide),
   (C9_referential_integrity stZero).2.1 condZeroHead (by decide),
   (C9_referential_integrity stZero).2.2 maintZeroHead (by decide)⟩

/-- C8: for every network row and every (year, month) in the 2020-2024 x
1-12 range, the traffic table contains the record whose average daily
traffic is the row's baseline volume times the seasonal factor of the
month, the linear growth factor of the year and the multiplicative Gaussian
noise; and in the pipeline the traffic table is computed from the network
table alone, with no dependency on the condition generator's output. -/
theorem C8_traffic_formula (noise : Nat → Nat → Nat → TNoise) (roads : List RoadRow)
    (ri yi mi : Nat) (hr : ri < roads.length) (hy : yi < 5) (hm : mi < 12) :
    (mkTRec (roads.get ⟨ri, hr⟩) (2020 + yi) (mi + 1) (noise ri yi mi)
        ∈ generate_traffic_data noise roads)
    ∧ (mkTRec (roads.get ⟨ri, hr⟩) (2020 + yi) (mi + 1) (noise ri yi mi)).avg_daily_traffic
        = pyInt (((roads.get ⟨ri, hr⟩).traffic_volume : ℚ)
            * trafficSeasonal (mi + 1) * trafficGrowth (2020 + yi)
            * (1 + 0.1 * (noise ri yi mi).gVol))
    ∧ (∀ st2 : Streams, (runAll st2).traffic
        = generate_traffic_data st2.trafficNoise (runAll st2).roads) := by
  refine ⟨?_, rfl, fun st2 => rfl⟩
  simp only [generate_traffic_data, List.mem_flatMap, List.mem_map, List.mem_range]
  exact ⟨(ri, roads.get ⟨ri, hr⟩), get_mem_enum roads ri hr, yi, hy, mi, hm, rfl⟩

/-- Witness for C8 on a one-row network table. -/
theorem C8_traffic_formula_witness :
    (0 < ([roadZeroHead] : List RoadRow).length ∧ (0:Nat) < 5 ∧ (0:Nat) < 12)
    ∧ ((mkTRec roadZeroHead 2020 1 (stZero.trafficNoise 0 0 0)
          ∈ generate_traffic_data stZero.trafficNoise [roadZeroHead])
      ∧ (mkTRec roadZeroHead 2020 1 (stZero.trafficNoise 0 0 0)).avg_daily_traffic
          = pyInt ((roadZeroHead.traffic_volume : ℚ) * trafficSeasonal 1
              * trafficGrowth 2020 * (1 + 0.1 * (stZero.trafficNoise 0 0 0).gVol))
      ∧ (∀ st2 : Streams, (runAll st2).traffic
          = generate_traffic_data st2.trafficNoise (runAll st2).roads)) :=
  ⟨⟨by decide, by decide, by decide⟩,
   C8_traffic_formula stZero.trafficNoise [roadZeroHead] 0 0 0
     (by decide) (by decide) (by decide)⟩
